import Mathlib

/-!
Verification of the OpenFreebuds Huawei battery handler
(src/openfreebuds/driver/huawei/handler/battery.py) against its design
specification: packet decoding into the property store, the periodic
update loop with its error handling, and the handler lifecycle
(on_init / cleanup).

The handler code is embedded shallowly: pure decoding becomes a Lean
function over the packet's parameter map, the coroutine methods become
functions from handler state (and an environment response function) to
the new state plus an ordered list of emitted effects, and the periodic
loop becomes a function over a finite schedule of per-iteration events
(update succeeded, update raised, cancellation delivered at a suspension
point), returning `Except` to make exception propagation explicit.
-/

namespace OpenFreebuds

/-! ## Data model -/

/-- A value published to the property store: the handler publishes Python
ints, strings (the output of json.dumps) and, per the spec's reading,
possibly plain booleans. -/
inductive PValue
  | int (n : Nat)
  | str (s : String)
  | bool (b : Bool)
  deriving DecidableEq, Repr

/-- Modelled from the spec: command id for the battery read request
(`CMD_BATTERY_READ` lives in openfreebuds.driver.huawei.constants, which
is not part of the provided sources). Claims refer to it only
symbolically, so it is modelled as an abstract integer command id. -/
def CMD_BATTERY_READ : Nat := 8

/-- Modelled from the spec: command id for unsolicited battery
notifications (`CMD_BATTERY_NOTIFY`, same missing constants module).
Only used symbolically. -/
def CMD_BATTERY_NOTIFY : Nat := 27

/-- A decoded packet: command id plus a mapping from small integer
parameter ids to byte payloads (bytes modelled as `List Nat`, each entry
0–255; no claim depends on the range bound). -/
structure HuaweiSppPackage where
  command_id : Nat
  parameters : List (Nat × List Nat)
  deriving DecidableEq, Repr

/-- Modelled from the spec: `HuaweiSppPackage.read_rq(command, ids)`
(package module not in the provided sources) builds a read request
naming the command id and the requested parameter ids; the byte-level
layout is a codec detail (spec §4.1, §6), so the request is modelled as
a packet whose parameter map names each requested id with an empty
payload. -/
def HuaweiSppPackage.read_rq (cmd : Nat) (ids : List Nat) : HuaweiSppPackage :=
  { command_id := cmd, parameters := ids.map (fun i => (i, [])) }

/-- Python `id in package.parameters` / `package.parameters[id]`:
lookup in the parameter map. -/
def lookupParam (ps : List (Nat × List Nat)) (i : Nat) : Option (List Nat) :=
  (ps.find? (fun p => p.1 == i)).map (fun p => p.2)

/-- Python's `json.dumps` applied to a bool: the JSON literal as a
string. -/
def json_dumps_bool (b : Bool) : String :=
  if b then "true" else "false"

/-- Effects a handler coroutine emits, in program order: a correlated
request via the driver, a property-store write, starting the periodic
task, and the cancel/await pair of cleanup. -/
inductive Effect
  | sendPackage (rq : HuaweiSppPackage)
  | putProperty (ns : String) (key : Option String) (value : List (String × PValue))
  | startPeriodicTask
  | cancelTask
  | awaitTask
  deriving DecidableEq, Repr

/-- Recognizer for the correlated-request effect. -/
def isSendEffect : Effect → Bool
  | Effect.sendPackage _ => true
  | _ => false

/-- State of OfbHuaweiBatteryHandler: `__init__(w_tws=True,
periodic_update=False, update_interval=1.0)` sets the three
configuration fields and `update_task = None`. The interval only feeds
`asyncio.sleep`, so its numeric value is carried opaquely as a rational. -/
structure OfbHuaweiBatteryHandler where
  w_tws : Bool := true
  periodic_update : Bool := false
  update_interval : ℚ := 1
  update_task : Option Unit := none
  deriving DecidableEq, Repr

/-! ## on_package -/

/-- First conditional of `on_package`:
`if 1 in package.parameters and len(package.parameters[1]) == 1:
out["global"] = int(package.parameters[1][0])`. -/
def globalChunk (ps : List (Nat × List Nat)) : List (String × PValue) :=
  match lookupParam ps 1 with
  | some v => if v.length = 1 then [("global", PValue.int (v.getD 0 0))] else []
  | none => []

/-- Second conditional of `on_package`:
`if 2 in package.parameters and len(package.parameters[2]) == 3 and
self.w_tws: level = package.parameters[2]; out["left"], out["right"],
out["case"] = int(level[0]), int(level[1]), int(level[2])`. -/
def twsChunk (w_tws : Bool) (ps : List (Nat × List Nat)) : List (String × PValue) :=
  match lookupParam ps 2 with
  | some level =>
      if level.length = 3 ∧ w_tws then
        [("left", PValue.int (level.getD 0 0)),
         ("right", PValue.int (level.getD 1 0)),
         ("case", PValue.int (level.getD 2 0))]
      else []
  | none => []

/-- Third conditional of `on_package`:
`if 3 in package.parameters and len(package.parameters[3]) > 0:
out["is_charging"] = json.dumps(b"\x01" in package.parameters[3])`
(for bytes, `b"\x01" in payload` is containment of the byte 0x01). -/
def chargingChunk (ps : List (Nat × List Nat)) : List (String × PValue) :=
  match lookupParam ps 3 with
  | some v =>
      if v.length > 0 then
        [("is_charging", PValue.str (json_dumps_bool (v.contains 1)))]
      else []
  | none => []

/-- The dictionary `out` built by `on_package`, in insertion order: the
three conditionals above, appended in program order. -/
def OfbHuaweiBatteryHandler.on_package_out (h : OfbHuaweiBatteryHandler)
    (package : HuaweiSppPackage) : List (String × PValue) :=
  globalChunk package.parameters ++ twsChunk h.w_tws package.parameters ++
    chargingChunk package.parameters

/-- `on_package` ends with the single call
`await self.driver.put_property("battery", None, out)`. -/
def OfbHuaweiBatteryHandler.on_package (h : OfbHuaweiBatteryHandler)
    (package : HuaweiSppPackage) : List Effect :=
  [Effect.putProperty "battery" none (h.on_package_out package)]

/-! ## Lifecycle coroutines -/

/-- `on_init`: sends one read request for parameters [1, 2, 3] of
CMD_BATTERY_READ through the correlator (`respond` models the
environment's correlated response), feeds the response to `on_package`,
then starts the periodic task iff `periodic_update`. Returns the new
handler state and the ordered effect trace. -/
def OfbHuaweiBatteryHandler.on_init (h : OfbHuaweiBatteryHandler)
    (respond : HuaweiSppPackage → HuaweiSppPackage) :
    OfbHuaweiBatteryHandler × List Effect :=
  let rq := HuaweiSppPackage.read_rq CMD_BATTERY_READ [1, 2, 3]
  let resp := respond rq
  let effs := Effect.sendPackage rq :: h.on_package resp
  if h.periodic_update then
    ({ h with update_task := some () }, effs ++ [Effect.startPeriodicTask])
  else
    (h, effs)

/-- `request_update`: one read request, response fed to `on_package`.
Handler state is untouched (the method assigns no attribute). -/
def OfbHuaweiBatteryHandler.request_update (h : OfbHuaweiBatteryHandler)
    (respond : HuaweiSppPackage → HuaweiSppPackage) : List Effect :=
  let rq := HuaweiSppPackage.read_rq CMD_BATTERY_READ [1, 2, 3]
  Effect.sendPackage rq :: h.on_package (respond rq)

/-- `cleanup`: when `update_task` is None this is a no-op; otherwise it
cancels the task, awaits it (swallowing CancelledError) and resets
`update_task` to None. -/
def OfbHuaweiBatteryHandler.cleanup (h : OfbHuaweiBatteryHandler) :
    OfbHuaweiBatteryHandler × List Effect :=
  match h.update_task with
  | none => (h, [])
  | some _ => ({ h with update_task := none }, [Effect.cancelTask, Effect.awaitTask])

/-- Predicate: the property mapping `m` carries key `k`. -/
def hasKey (m : List (String × PValue)) (k : String) : Bool :=
  m.any (fun p => p.1 == k)

/-! ## The periodic update loop

`_periodic_update_loop` is a `while True` whose body awaits
`asyncio.sleep`, then awaits `request_update` inside
`try/except Exception`; on an exception it breaks iff
`self.driver.started` is false. The whole loop sits inside
`try/except asyncio.CancelledError/except Exception`. Each loop
iteration is driven by one environment event: the update call succeeded,
the update call raised an `Exception` (recording the value of
`driver.started` the handler then reads), or cooperative cancellation
was delivered at one of the iteration's two suspension points (the sleep
or the awaits inside the update call — `CancelledError` derives from
`BaseException`, so the inner `except Exception` does not catch it). -/

/-- One iteration's environment event for the periodic loop. -/
inductive IterEvent
  | updateOk
  | updateRaises (started : Bool)
  | cancelDuringSleep
  | cancelDuringUpdate
  deriving DecidableEq, Repr

/-- Exceptions that can travel in this code: `asyncio.CancelledError`
(a BaseException) and ordinary `Exception`s from the update call. -/
inductive PyExc
  | cancelledError
  | exception
  deriving DecidableEq, Repr

/-- How the loop's `while True` finished. -/
inductive LoopExit
  | stopped
  | cancelled
  | running
  deriving DecidableEq, Repr

/-- The `while True` body together with the INNER `try/except
Exception`, but without the outer handlers: the result is an `Except`
so that exceptions crossing the while-loop boundary are explicit. A
cancellation delivered at either suspension point raises
`CancelledError` out of the loop (the inner `except Exception` does not
catch it); an update `Exception` is caught and `driver.started` decides
between retrying and `break`. An exhausted schedule leaves the loop
still running. -/
def loop_while_raw : List IterEvent → Except PyExc LoopExit
  | [] => Except.ok LoopExit.running
  | IterEvent.cancelDuringSleep :: _ => Except.error PyExc.cancelledError
  | IterEvent.cancelDuringUpdate :: _ => Except.error PyExc.cancelledError
  | IterEvent.updateOk :: rest => loop_while_raw rest
  | IterEvent.updateRaises started :: rest =>
      if started then loop_while_raw rest else Except.ok LoopExit.stopped

/-- `_periodic_update_loop`: the `while True` wrapped in the outer
`try/except asyncio.CancelledError/except Exception`, both of which
only log and return normally. -/
def periodic_update_loop (evs : List IterEvent) : Except PyExc LoopExit :=
  match loop_while_raw evs with
  | Except.ok r => Except.ok r
  | Except.error PyExc.cancelledError => Except.ok LoopExit.cancelled
  | Except.error PyExc.exception => Except.ok LoopExit.running

/-- Number of update calls the loop reaches (`await
self.request_update()` entered): one per `updateOk`/`updateRaises`
event consumed, one for a cancellation that lands inside the update
call itself, none for a cancellation landing in the sleep. -/
def updateAttempts : List IterEvent → Nat
  | [] => 0
  | IterEvent.cancelDuringSleep :: _ => 0
  | IterEvent.cancelDuringUpdate :: _ => 1
  | IterEvent.updateOk :: rest => 1 + updateAttempts rest
  | IterEvent.updateRaises started :: rest =>
      if started then 1 + updateAttempts rest else 1

/-- Events after which the loop goes on to another iteration: a
successful update, or a failed update while the driver is still
started. -/
def continuesEvent : IterEvent → Bool
  | IterEvent.updateOk => true
  | IterEvent.updateRaises started => started
  | _ => false

/-! ## Property store put (spec §4.4), for the frame/no-op claim -/

/-- A namespace's key/value mapping, as an insertion-ordered
association list. -/
abbrev PropMap := List (String × PValue)

/-- The property store: namespace name to mapping. -/
abbrev PropStore := List (String × PropMap)

/-- Set one key of a mapping, keeping insertion order; a new key is
appended. -/
def setKey (m : PropMap) (k : String) (v : PValue) : PropMap :=
  if m.any (fun p => p.1 == k) then
    m.map (fun p => if p.1 == k then (k, v) else p)
  else
    m ++ [(k, v)]

/-- Shallow merge: keys present in `upd` overwrite, keys absent are
left untouched. -/
def mergeMap (m upd : PropMap) : PropMap :=
  upd.foldl (fun acc p => setKey acc p.1 p.2) m

/-- Read a namespace's mapping (empty when absent). -/
def getNs (st : PropStore) (ns : String) : PropMap :=
  ((st.find? (fun p => p.1 == ns)).map (fun p => p.2)).getD []

/-- Replace a namespace's mapping, creating the namespace when absent. -/
def setNs (st : PropStore) (ns : String) (m : PropMap) : PropStore :=
  if st.any (fun p => p.1 == ns) then
    st.map (fun p => if p.1 == ns then (ns, m) else p)
  else
    st ++ [(ns, m)]

/-- Modelled from the spec: `put(namespace, None, mapping)` of the
Property Store (§4.4, the store itself is not among the provided
sources) — a shallow merge into the namespace's existing mapping,
followed by change detection: a PROPERTY_CHANGED event is emitted iff
the resulting namespace mapping differs from the previous snapshot.
Returns the updated store and whether an event was emitted. -/
def put_property_ns (st : PropStore) (ns : String) (upd : PropMap) :
    PropStore × Bool :=
  let old := getNs st ns
  let merged := mergeMap old upd
  (setNs st ns merged, !(merged == old))

/-! ## Concrete inputs used by the closed theorems -/

/-- Handler configured with dual-earbud reporting enabled (w_tws true),
as `__init__` defaults build it. -/
def scenarioHandler : OfbHuaweiBatteryHandler :=
  { w_tws := true, periodic_update := false, update_interval := 1, update_task := none }

/-- The scenario packet {1: [55], 2: [40, 45, 99], 3: [0x01]}. -/
def scenarioPackage : HuaweiSppPackage :=
  { command_id := CMD_BATTERY_NOTIFY, parameters := [(1, [55]), (2, [40, 45, 99]), (3, [1])] }

/-- A packet carrying none of the recognized parameter ids 1, 2, 3. -/
def framePackage : HuaweiSppPackage :=
  { command_id := CMD_BATTERY_NOTIFY, parameters := [(5, [1]), (9, [])] }

/-- A store already holding battery state, to observe the no-op merge. -/
def frameStore : PropStore :=
  [("battery", [("global", PValue.int 50)]), ("anc", [("mode", PValue.str "off")])]

/-- A packet whose payloads all have unexpected lengths: parameter 1
with two bytes, parameter 2 with two bytes, parameter 3 empty. -/
def malformedPackage : HuaweiSppPackage :=
  { command_id := CMD_BATTERY_NOTIFY, parameters := [(1, [55, 56]), (2, [40, 45]), (3, [])] }

/-- The scenario packet with dual-earbud reporting disabled is read by
this handler. -/
def monoHandler : OfbHuaweiBatteryHandler :=
  { w_tws := false, periodic_update := false, update_interval := 1, update_task := none }

/-- A handler whose periodic task is running. -/
def runningHandler : OfbHuaweiBatteryHandler :=
  { w_tws := true, periodic_update := true, update_interval := 1, update_task := some () }

/-! ## Helper lemmas -/

/-- A prefix of only continuing events is consumed transparently by the
raw while loop. -/
theorem loop_while_raw_append (pre tail : List IterEvent)
    (hpre : pre.all continuesEvent = true) :
    loop_while_raw (pre ++ tail) = loop_while_raw tail := by
  induction pre with
  | nil => rfl
  | cons e pre ih =>
      rw [List.all_cons, Bool.and_eq_true] at hpre
      cases e with
      | updateOk => simpa [loop_while_raw] using ih hpre.2
      | updateRaises started =>
          have hs : started = true := hpre.1
          subst hs
          simpa [loop_while_raw] using ih hpre.2
      | cancelDuringSleep => simp [continuesEvent] at hpre
      | cancelDuringUpdate => simp [continuesEvent] at hpre

/-- Update attempts across a prefix of continuing events add up. -/
theorem updateAttempts_append (pre tail : List IterEvent)
    (hpre : pre.all continuesEvent = true) :
    updateAttempts (pre ++ tail) = pre.length + updateAttempts tail := by
  induction pre with
  | nil => simp
  | cons e pre ih =>
      rw [List.all_cons, Bool.and_eq_true] at hpre
      cases e with
      | updateOk =>
          simp [updateAttempts, ih hpre.2, List.length_cons]
          omega
      | updateRaises started =>
          have hs : started = true := hpre.1
          subst hs
          simp [updateAttempts, ih hpre.2, List.length_cons]
          omega
      | cancelDuringSleep => simp [continuesEvent] at hpre
      | cancelDuringUpdate => simp [continuesEvent] at hpre

/-- Skipping a non-matching head namespace leaves a read unchanged. -/
theorem getNs_cons_ne (name : String) (pm : PropMap) (st : PropStore)
    (ns : String) (h : (name == ns) = false) :
    getNs ((name, pm) :: st) ns = getNs st ns := by
  simp [getNs, List.find?, h]

/-- setNs walks past a non-matching head namespace. -/
theorem setNs_cons_ne (name : String) (pm : PropMap) (st : PropStore)
    (ns : String) (m : PropMap) (h : (name == ns) = false) :
    setNs ((name, pm) :: st) ns m = (name, pm) :: setNs st ns m := by
  by_cases hrest : st.any (fun q => q.1 == ns) = true
  · simp only [setNs, List.any_cons, h, Bool.false_or, hrest, if_true, List.map_cons]
    simp [h]
  · have hrest' : st.any (fun q => q.1 == ns) = false :=
      Bool.eq_false_iff.mpr hrest
    simp [setNs, h, hrest']

/-- Reading back a namespace that was just set returns what was set. -/
theorem getNs_setNs (st : PropStore) (ns : String) (m : PropMap) :
    getNs (setNs st ns m) ns = m := by
  induction st with
  | nil => simp [setNs, getNs]
  | cons p st ih =>
      rcases p with ⟨name, pm⟩
      by_cases hp : name = ns
      · subst hp
        simp [setNs, getNs, List.find?]
      · have hp' : (name == ns) = false := beq_false_of_ne hp
        rw [setNs_cons_ne name pm st ns m hp', getNs_cons_ne name pm _ ns hp']
        exact ih

/-- hasKey distributes over append. -/
theorem hasKey_append (a b : List (String × PValue)) (k : String) :
    hasKey (a ++ b) k = (hasKey a k || hasKey b k) := by
  simp [hasKey]

/-- A mapping none of whose keys is `k` does not carry `k`. -/
theorem hasKey_eq_false (m : List (String × PValue)) (k : String)
    (h : ∀ p ∈ m, p.1 ≠ k) : hasKey m k = false := by
  unfold hasKey
  rw [List.any_eq_false]
  intro p hp
  simp [beq_false_of_ne (h p hp)]

/-- Every key the first conditional can publish is "global". -/
theorem globalChunk_keys (ps : List (Nat × List Nat)) :
    ∀ p ∈ globalChunk ps, p.1 = "global" := by
  unfold globalChunk
  cases lookupParam ps 1 with
  | none => simp
  | some v => by_cases hl : v.length = 1 <;> simp [hl]

/-- Every key the second conditional can publish is "left", "right" or
"case". -/
theorem twsChunk_keys (w : Bool) (ps : List (Nat × List Nat)) :
    ∀ p ∈ twsChunk w ps, p.1 = "left" ∨ p.1 = "right" ∨ p.1 = "case" := by
  intro p hp
  rcases hE : lookupParam ps 2 with _ | v <;> simp only [twsChunk, hE] at hp
  · exact absurd hp (List.not_mem_nil p)
  · by_cases hc : v.length = 3 ∧ w = true
    · rw [if_pos hc] at hp
      simp only [List.mem_cons, List.not_mem_nil, or_false] at hp
      rcases hp with h | h | h <;> subst h <;> simp
    · rw [if_neg hc] at hp
      exact absurd hp (List.not_mem_nil p)

/-- Every key the third conditional can publish is "is_charging". -/
theorem chargingChunk_keys (ps : List (Nat × List Nat)) :
    ∀ p ∈ chargingChunk ps, p.1 = "is_charging" := by
  unfold chargingChunk
  cases lookupParam ps 3 with
  | none => simp
  | some v => by_cases hl : v.length > 0 <;> simp [hl]

/-- The first conditional publishes nothing for keys other than
"global". -/
theorem hasKey_globalChunk_ne (ps : List (Nat × List Nat)) (k : String)
    (hk : k ≠ "global") : hasKey (globalChunk ps) k = false :=
  hasKey_eq_false _ _ (fun p hp => by
    rw [globalChunk_keys ps p hp]
    exact fun hE => hk hE.symm)

/-- The second conditional publishes nothing for keys other than the
earbud keys. -/
theorem hasKey_twsChunk_ne (w : Bool) (ps : List (Nat × List Nat)) (k : String)
    (hk1 : k ≠ "left") (hk2 : k ≠ "right") (hk3 : k ≠ "case") :
    hasKey (twsChunk w ps) k = false :=
  hasKey_eq_false _ _ (fun p hp => by
    rcases twsChunk_keys w ps p hp with h | h | h <;> rw [h]
    · exact fun hE => hk1 hE.symm
    · exact fun hE => hk2 hE.symm
    · exact fun hE => hk3 hE.symm)

/-- The third conditional publishes nothing for keys other than
"is_charging". -/
theorem hasKey_chargingChunk_ne (ps : List (Nat × List Nat)) (k : String)
    (hk : k ≠ "is_charging") : hasKey (chargingChunk ps) k = false :=
  hasKey_eq_false _ _ (fun p hp => by
    rw [chargingChunk_keys ps p hp]
    exact fun hE => hk hE.symm)

/-- With `w_tws` false the second conditional publishes nothing at all. -/
theorem twsChunk_false (ps : List (Nat × List Nat)) : twsChunk false ps = [] := by
  unfold twsChunk
  cases lookupParam ps 2 with
  | none => rfl
  | some v => simp

/-- A well-formed 3-byte parameter 2 with `w_tws` set publishes exactly
left/right/case. -/
theorem twsChunk_true_eq (ps : List (Nat × List Nat)) (v : List Nat)
    (hv : lookupParam ps 2 = some v) (hl : v.length = 3) :
    twsChunk true ps =
      [("left", PValue.int (v.getD 0 0)), ("right", PValue.int (v.getD 1 0)),
       ("case", PValue.int (v.getD 2 0))] := by
  unfold twsChunk
  rw [hv]
  simp [hl]

/-- A parameter 1 whose payload is not exactly one byte is skipped. -/
theorem globalChunk_skip (ps : List (Nat × List Nat)) (v : List Nat)
    (hv : lookupParam ps 1 = some v) (hl : v.length ≠ 1) :
    globalChunk ps = [] := by
  unfold globalChunk
  rw [hv]
  simp [hl]

/-- A parameter 2 whose payload is not exactly three bytes is skipped. -/
theorem twsChunk_skip (w : Bool) (ps : List (Nat × List Nat)) (v : List Nat)
    (hv : lookupParam ps 2 = some v) (hl : v.length ≠ 3) :
    twsChunk w ps = [] := by
  unfold twsChunk
  rw [hv]
  simp [hl]

/-- A parameter 3 with empty payload is skipped. -/
theorem chargingChunk_skip (ps : List (Nat × List Nat))
    (hv : lookupParam ps 3 = some []) :
    chargingChunk ps = [] := by
  unfold chargingChunk
  rw [hv]
  simp

/-- Absent parameters publish nothing (first conditional). -/
theorem globalChunk_none (ps : List (Nat × List Nat))
    (hv : lookupParam ps 1 = none) : globalChunk ps = [] := by
  unfold globalChunk
  rw [hv]

/-- Absent parameters publish nothing (second conditional). -/
theorem twsChunk_none (w : Bool) (ps : List (Nat × List Nat))
    (hv : lookupParam ps 2 = none) : twsChunk w ps = [] := by
  unfold twsChunk
  rw [hv]

/-- Absent parameters publish nothing (third conditional). -/
theorem chargingChunk_none (ps : List (Nat × List Nat))
    (hv : lookupParam ps 3 = none) : chargingChunk ps = [] := by
  unfold chargingChunk
  rw [hv]

/-! ## Claims -/

/-- C1 counterexample: on the scenario packet
{1: [55], 2: [40, 45, 99], 3: [0x01]} with dual-earbud reporting
enabled, on_package does NOT publish the claimed state with
`is_charging` a plain boolean true — the code wraps the flag in
json.dumps, so the published value is the string "true". -/
theorem battery_decode_plain_bool_counterexample :
    scenarioHandler.on_package scenarioPackage ≠
      [Effect.putProperty "battery" none
        [("global", PValue.int 55), ("left", PValue.int 40), ("right", PValue.int 45),
         ("case", PValue.int 99), ("is_charging", PValue.bool true)]] := by
  decide

/-- C1 (amended): on the scenario packet with dual-earbud reporting
enabled, on_package publishes to the "battery" namespace exactly the
state {"global": 55, "left": 40, "right": 45, "case": 99,
"is_charging": "true"}, where is_charging is the JSON-serialized string
"true" (the result of json.dumps on the boolean), not a plain boolean. -/
theorem battery_decode_scenario_amended :
    scenarioHandler.on_package scenarioPackage =
      [Effect.putProperty "battery" none
        [("global", PValue.int 55), ("left", PValue.int 40), ("right", PValue.int 45),
         ("case", PValue.int 99), ("is_charging", PValue.str "true")]] := by
  decide

/-- C2: whenever a periodic update call fails, then (a) if
driver.started is false the loop performs that failing attempt and
terminates — events scheduled afterwards never run another attempt and
the loop exits via `break` (LoopExit.stopped) without raising; (b) if
driver.started is true the loop continues and performs at least one
more update attempt on the next interval (whatever that next attempt's
own outcome). -/
theorem periodic_loop_failure_retry (pre rest : List IterEvent)
    (hpre : pre.all continuesEvent = true) :
    (updateAttempts (pre ++ IterEvent.updateRaises false :: rest) = pre.length + 1
      ∧ periodic_update_loop (pre ++ IterEvent.updateRaises false :: rest) =
          Except.ok LoopExit.stopped)
    ∧ ∀ e rest2, (e = IterEvent.updateOk ∨ ∃ b, e = IterEvent.updateRaises b) →
        pre.length + 2 ≤
          updateAttempts (pre ++ IterEvent.updateRaises true :: e :: rest2) := by
  refine ⟨⟨?_, ?_⟩, ?_⟩
  · rw [updateAttempts_append pre _ hpre]
    simp [updateAttempts]
  · unfold periodic_update_loop
    rw [loop_while_raw_append pre _ hpre]
    simp [loop_while_raw]
  · intro e rest2 he
    rw [updateAttempts_append pre _ hpre]
    have : 2 ≤ updateAttempts (IterEvent.updateRaises true :: e :: rest2) := by
      rcases he with he | ⟨b, he⟩ <;> subst he
      · simp [updateAttempts]
        omega
      · cases b <;> (simp [updateAttempts]; try omega)
    omega

/-- C2 witness: after one successful iteration, a failing update with
the driver stopped halts the loop at two total attempts; with the
driver started, the next interval's attempt brings the count to at
least three. -/
theorem periodic_loop_failure_retry_witness :
    updateAttempts ([IterEvent.updateOk] ++
        IterEvent.updateRaises false :: [IterEvent.updateOk]) = 2
    ∧ periodic_update_loop ([IterEvent.updateOk] ++
        IterEvent.updateRaises false :: [IterEvent.updateOk]) =
        Except.ok LoopExit.stopped
    ∧ 3 ≤ updateAttempts ([IterEvent.updateOk] ++
        IterEvent.updateRaises true :: IterEvent.updateOk :: []) :=
  ⟨(periodic_loop_failure_retry [IterEvent.updateOk] [IterEvent.updateOk]
      (by decide)).1.1,
   (periodic_loop_failure_retry [IterEvent.updateOk] [IterEvent.updateOk]
      (by decide)).1.2,
   (periodic_loop_failure_retry [IterEvent.updateOk] [IterEvent.updateOk]
      (by decide)).2 IterEvent.updateOk [] (Or.inl rfl)⟩

/-- C3: on_init issues exactly one correlated read request — for
CMD_BATTERY_READ naming parameter ids 1, 2 and 3 — through
driver.send_package, and its very next effect is feeding the correlated
response into its own on_package (the "battery" put), all before
on_init returns; the periodic-task start, when configured, comes only
after. -/
theorem on_init_single_bootstrap_request (h : OfbHuaweiBatteryHandler)
    (respond : HuaweiSppPackage → HuaweiSppPackage) :
    (h.on_init respond).2 =
        Effect.sendPackage (HuaweiSppPackage.read_rq CMD_BATTERY_READ [1, 2, 3])
          :: Effect.putProperty "battery" none
               (h.on_package_out
                 (respond (HuaweiSppPackage.read_rq CMD_BATTERY_READ [1, 2, 3])))
          :: (if h.periodic_update then [Effect.startPeriodicTask] else [])
      ∧ ((h.on_init respond).2.countP isSendEffect) = 1 := by
  cases hP : h.periodic_update <;>
    simp [OfbHuaweiBatteryHandler.on_init, OfbHuaweiBatteryHandler.on_package,
      hP, isSendEffect, List.countP_cons, List.countP_append]

/-- C4: cleanup is idempotent — on a handler whose task never started
it is a no-op (same state, no effects); running it a second time after
it completed is again a no-op; and after any cleanup, update_task is
none. -/
theorem cleanup_idempotent (h : OfbHuaweiBatteryHandler) :
    (h.update_task = none → h.cleanup = (h, []))
    ∧ ((h.cleanup).1).cleanup = ((h.cleanup).1, [])
    ∧ (h.cleanup).1.update_task = none := by
  refine ⟨?_, ?_, ?_⟩ <;>
    cases hT : h.update_task <;>
    simp [OfbHuaweiBatteryHandler.cleanup, hT]

/-- C4 witness: on the never-started handler cleanup is a no-op, and on
a handler with a running task a second cleanup after the first is a
no-op with update_task left none. -/
theorem cleanup_idempotent_witness :
    scenarioHandler.cleanup = (scenarioHandler, [])
    ∧ ((runningHandler.cleanup).1).cleanup = ((runningHandler.cleanup).1, [])
    ∧ (runningHandler.cleanup).1.update_task = none :=
  ⟨(cleanup_idempotent scenarioHandler).1 rfl,
   (cleanup_idempotent runningHandler).2.1,
   (cleanup_idempotent runningHandler).2.2⟩

/-- C5: once cancellation is delivered at a suspension point of the
periodic loop (the sleep or inside the update call), events scheduled
after it contribute nothing — the update-attempt count and the loop
result are those of the schedule cut at the cancellation — and the loop
unwinds through the CancelledError handler and finishes
(LoopExit.cancelled), which is what lets cleanup's await complete;
cleanup itself always leaves update_task none. -/
theorem cleanup_stops_loop (pre rest : List IterEvent) (c : IterEvent)
    (hc : c = IterEvent.cancelDuringSleep ∨ c = IterEvent.cancelDuringUpdate)
    (hpre : pre.all continuesEvent = true) :
    updateAttempts (pre ++ c :: rest) = updateAttempts (pre ++ [c])
    ∧ periodic_update_loop (pre ++ c :: rest) = Except.ok LoopExit.cancelled
    ∧ ∀ h : OfbHuaweiBatteryHandler, (h.cleanup).1.update_task = none := by
  refine ⟨?_, ?_, ?_⟩
  · rw [updateAttempts_append pre _ hpre, updateAttempts_append pre _ hpre]
    rcases hc with hc | hc <;> subst hc <;> simp [updateAttempts]
  · unfold periodic_update_loop
    rw [loop_while_raw_append pre _ hpre]
    rcases hc with hc | hc <;> subst hc <;> simp [loop_while_raw]
  · intro h
    cases hT : h.update_task <;> simp [OfbHuaweiBatteryHandler.cleanup, hT]

/-- C5 witness: cancellation delivered in the sleep of the second
iteration, with more events scheduled after it, yields the same attempt
count as if nothing followed, the loop exits through its CancelledError
handler, and cleanup leaves update_task none. -/
theorem cleanup_stops_loop_witness :
    updateAttempts ([IterEvent.updateOk] ++ IterEvent.cancelDuringSleep ::
        [IterEvent.updateOk, IterEvent.updateRaises false]) =
      updateAttempts ([IterEvent.updateOk] ++ [IterEvent.cancelDuringSleep])
    ∧ periodic_update_loop ([IterEvent.updateOk] ++ IterEvent.cancelDuringSleep ::
        [IterEvent.updateOk, IterEvent.updateRaises false]) =
      Except.ok LoopExit.cancelled
    ∧ (runningHandler.cleanup).1.update_task = none := by
  have h := cleanup_stops_loop [IterEvent.updateOk]
    [IterEvent.updateOk, IterEvent.updateRaises false]
    IterEvent.cancelDuringSleep (Or.inl rfl) (by decide)
  exact ⟨h.1, h.2.1, h.2.2 runningHandler⟩

/-- C6: the periodic update loop never propagates an error to its
owner: over every schedule of iteration events — updates succeeding,
updates raising, cancellation at either suspension point —
_periodic_update_loop finishes without an uncaught exception (always
`Except.ok`). -/
theorem periodic_loop_no_propagation (evs : List IterEvent) :
    ∃ r : LoopExit, periodic_update_loop evs = Except.ok r := by
  unfold periodic_update_loop
  cases hE : loop_while_raw evs with
  | ok r => exact ⟨r, rfl⟩
  | error e => cases e with
      | cancelledError => exact ⟨LoopExit.cancelled, rfl⟩
      | exception => exact ⟨LoopExit.running, rfl⟩

/-- C7: after on_init on a freshly constructed handler (update_task
none, as `__init__` leaves it), a periodic task is running iff the
handler was configured with periodic_update; and the only other
state-changing operation, cleanup, never leaves a task set. -/
theorem on_init_starts_task_iff_configured (h : OfbHuaweiBatteryHandler)
    (respond : HuaweiSppPackage → HuaweiSppPackage)
    (hfresh : h.update_task = none) :
    ((h.on_init respond).1.update_task.isSome = h.periodic_update)
    ∧ ∀ h2 : OfbHuaweiBatteryHandler, (h2.cleanup).1.update_task.isSome = false := by
  constructor
  · cases hP : h.periodic_update <;>
      simp [OfbHuaweiBatteryHandler.on_init, hP, hfresh]
  · intro h2
    cases hT : h2.update_task <;> simp [OfbHuaweiBatteryHandler.cleanup, hT]

/-- C7 witness: a handler constructed with periodic updates disabled
ends on_init with no task; the configuration flag matches. -/
theorem on_init_starts_task_iff_configured_witness :
    ((scenarioHandler.on_init id).1.update_task.isSome = scenarioHandler.periodic_update)
    ∧ ∀ h2 : OfbHuaweiBatteryHandler, (h2.cleanup).1.update_task.isSome = false :=
  on_init_starts_task_iff_configured scenarioHandler id rfl

/-- C8: for a packet carrying parameter id 2 as a 3-byte payload, the
keys left, right and case are published iff w_tws is set; and the
handling of parameter ids 1 and 3 (the "global" and "is_charging"
entries of the published mapping) is identical to that of the same
handler with w_tws forced on — so disabling dual-earbud reporting only
drops the earbud keys. -/
theorem tws_gates_earbud_keys (h : OfbHuaweiBatteryHandler)
    (pkg : HuaweiSppPackage) (v : List Nat)
    (hv : lookupParam pkg.parameters 2 = some v) (hlen : v.length = 3) :
    (hasKey (h.on_package_out pkg) "left" = h.w_tws
      ∧ hasKey (h.on_package_out pkg) "right" = h.w_tws
      ∧ hasKey (h.on_package_out pkg) "case" = h.w_tws)
    ∧ (h.on_package_out pkg).filter
          (fun p => p.1 == "global" || p.1 == "is_charging")
        = (OfbHuaweiBatteryHandler.on_package_out
            { h with w_tws := true } pkg).filter
          (fun p => p.1 == "global" || p.1 == "is_charging") := by
  have hTws : ∀ w : Bool, ∀ k : String,
      (k = "left" ∨ k = "right" ∨ k = "case") →
      hasKey (twsChunk w pkg.parameters) k = w := by
    intro w k hk
    cases w with
    | false => rw [twsChunk_false]; rfl
    | true =>
        rw [twsChunk_true_eq pkg.parameters v hv hlen]
        rcases hk with hk | hk | hk <;> subst hk <;> rfl
  have hFilterTws : ∀ w : Bool,
      (twsChunk w pkg.parameters).filter
        (fun p => p.1 == "global" || p.1 == "is_charging") = [] := by
    intro w
    rw [List.filter_eq_nil_iff]
    intro p hp
    rcases twsChunk_keys w pkg.parameters p hp with h1 | h1 | h1 <;>
      simp [h1]
  constructor
  · refine ⟨?_, ?_, ?_⟩ <;>
      unfold OfbHuaweiBatteryHandler.on_package_out <;>
      rw [hasKey_append, hasKey_append] <;>
      rw [hasKey_globalChunk_ne _ _ (by decide),
        hasKey_chargingChunk_ne _ _ (by decide)] <;>
      simp only [Bool.false_or, Bool.or_false]
    · exact hTws h.w_tws "left" (Or.inl rfl)
    · exact hTws h.w_tws "right" (Or.inr (Or.inl rfl))
    · exact hTws h.w_tws "case" (Or.inr (Or.inr rfl))
  · unfold OfbHuaweiBatteryHandler.on_package_out
    simp only [List.filter_append, hFilterTws]

/-- C8 witness: on the scenario packet the earbud keys track the w_tws
flag (true for the dual handler, false for the mono handler, whose
global/is_charging handling matches the dual handler's). -/
theorem tws_gates_earbud_keys_witness :
    (hasKey (scenarioHandler.on_package_out scenarioPackage) "left" = scenarioHandler.w_tws
      ∧ hasKey (scenarioHandler.on_package_out scenarioPackage) "right" = scenarioHandler.w_tws
      ∧ hasKey (scenarioHandler.on_package_out scenarioPackage) "case" = scenarioHandler.w_tws)
    ∧ (monoHandler.on_package_out scenarioPackage).filter
          (fun p => p.1 == "global" || p.1 == "is_charging")
        = (OfbHuaweiBatteryHandler.on_package_out
            { monoHandler with w_tws := true } scenarioPackage).filter
          (fun p => p.1 == "global" || p.1 == "is_charging") :=
  ⟨(tws_gates_earbud_keys scenarioHandler scenarioPackage [40, 45, 99] rfl rfl).1,
   (tws_gates_earbud_keys monoHandler scenarioPackage [40, 45, 99] rfl rfl).2⟩

/-- C9: malformed payloads are skipped silently, with the corresponding
keys omitted: parameter 1 with payload length ≠ 1 publishes no
"global", parameter 2 with payload length ≠ 3 publishes no earbud keys,
and parameter 3 with empty payload publishes no "is_charging" (and
on_package stays total — it never indexes a byte out of range, its
output being defined for every packet). -/
theorem on_package_length_guards (h : OfbHuaweiBatteryHandler)
    (pkg : HuaweiSppPackage) :
    (∀ v, lookupParam pkg.parameters 1 = some v → v.length ≠ 1 →
        hasKey (h.on_package_out pkg) "global" = false)
    ∧ (∀ v, lookupParam pkg.parameters 2 = some v → v.length ≠ 3 →
        hasKey (h.on_package_out pkg) "left" = false
        ∧ hasKey (h.on_package_out pkg) "right" = false
        ∧ hasKey (h.on_package_out pkg) "case" = false)
    ∧ (lookupParam pkg.parameters 3 = some [] →
        hasKey (h.on_package_out pkg) "is_charging" = false) := by
  refine ⟨?_, ?_, ?_⟩
  · intro v hv hl
    unfold OfbHuaweiBatteryHandler.on_package_out
    rw [hasKey_append, hasKey_append, globalChunk_skip pkg.parameters v hv hl,
      hasKey_twsChunk_ne _ _ _ (by decide) (by decide) (by decide),
      hasKey_chargingChunk_ne _ _ (by decide)]
    rfl
  · intro v hv hl
    refine ⟨?_, ?_, ?_⟩ <;>
      unfold OfbHuaweiBatteryHandler.on_package_out <;>
      rw [hasKey_append, hasKey_append, twsChunk_skip h.w_tws pkg.parameters v hv hl,
        hasKey_globalChunk_ne _ _ (by decide),
        hasKey_chargingChunk_ne _ _ (by decide)] <;>
      rfl
  · intro hv
    unfold OfbHuaweiBatteryHandler.on_package_out
    rw [hasKey_append, hasKey_append, chargingChunk_skip pkg.parameters hv,
      hasKey_globalChunk_ne _ _ (by decide),
      hasKey_twsChunk_ne _ _ _ (by decide) (by decide) (by decide)]
    rfl

/-- C9 witness: the packet {1: [55, 56], 2: [40, 45], 3: []} — every
payload of an unexpected length — publishes none of the five keys. -/
theorem on_package_length_guards_witness :
    hasKey (scenarioHandler.on_package_out malformedPackage) "global" = false
    ∧ hasKey (scenarioHandler.on_package_out malformedPackage) "left" = false
    ∧ hasKey (scenarioHandler.on_package_out malformedPackage) "right" = false
    ∧ hasKey (scenarioHandler.on_package_out malformedPackage) "case" = false
    ∧ hasKey (scenarioHandler.on_package_out malformedPackage) "is_charging" = false :=
  ⟨(on_package_length_guards scenarioHandler malformedPackage).1
      [55, 56] rfl (by decide),
   ((on_package_length_guards scenarioHandler malformedPackage).2.1
      [40, 45] rfl (by decide)).1,
   ((on_package_length_guards scenarioHandler malformedPackage).2.1
      [40, 45] rfl (by decide)).2.1,
   ((on_package_length_guards scenarioHandler malformedPackage).2.1
      [40, 45] rfl (by decide)).2.2,
   (on_package_length_guards scenarioHandler malformedPackage).2.2 rfl⟩

/-- C10: on_package performs exactly one property-store write — a
whole-namespace merge put into "battery" with key none, and no other
namespace, for every packet and handler — and on a packet with none of
the recognized parameter ids the merged mapping is empty, so the
(spec-modelled) store put leaves the battery namespace unchanged and
emits no change event. -/
theorem on_package_single_put_frame (h : OfbHuaweiBatteryHandler)
    (pkg : HuaweiSppPackage) (st : PropStore)
    (hp1 : lookupParam pkg.parameters 1 = none)
    (hp2 : lookupParam pkg.parameters 2 = none)
    (hp3 : lookupParam pkg.parameters 3 = none) :
    (∀ (hh : OfbHuaweiBatteryHandler) (pkg2 : HuaweiSppPackage),
        hh.on_package pkg2 =
          [Effect.putProperty "battery" none (hh.on_package_out pkg2)])
    ∧ h.on_package_out pkg = []
    ∧ (put_property_ns st "battery" (h.on_package_out pkg)).2 = false
    ∧ getNs (put_property_ns st "battery" (h.on_package_out pkg)).1 "battery"
        = getNs st "battery" := by
  have hout : h.on_package_out pkg = [] := by
    unfold OfbHuaweiBatteryHandler.on_package_out
    rw [globalChunk_none _ hp1, twsChunk_none _ _ hp2, chargingChunk_none _ hp3]
    rfl
  refine ⟨fun hh pkg2 => rfl, hout, ?_, ?_⟩
  · rw [hout]
    simp [put_property_ns, mergeMap]
  · rw [hout]
    show getNs (setNs st "battery" (mergeMap (getNs st "battery") [])) "battery"
        = getNs st "battery"
    rw [show mergeMap (getNs st "battery") [] = getNs st "battery" from rfl,
      getNs_setNs]

/-- C10 witness: a packet with only unrecognized parameter ids, against
a store already holding battery state: no change event, battery
namespace preserved. -/
theorem on_package_single_put_frame_witness :
    scenarioHandler.on_package_out framePackage = []
    ∧ (put_property_ns frameStore "battery"
        (scenarioHandler.on_package_out framePackage)).2 = false
    ∧ getNs (put_property_ns frameStore "battery"
        (scenarioHandler.on_package_out framePackage)).1 "battery"
        = getNs frameStore "battery" :=
  ⟨(on_package_single_put_frame scenarioHandler framePackage frameStore
      rfl rfl rfl).2.1,
   (on_package_single_put_frame scenarioHandler framePackage frameStore
      rfl rfl rfl).2.2.1,
   (on_package_single_put_frame scenarioHandler framePackage frameStore
      rfl rfl rfl).2.2.2⟩

end OpenFreebuds
